import Mathlib

/-!
Shallow embedding of the collaborative task pipeline of the `Tasks` view
(`src/unnamed/part_002`, lines 763–916): the board state, the Composer
submit handler (`handleAddTask`), the drag-and-drop controller
(`handleDragStart` / `handleDrop`), the delete guard (`deleteTask`), the
load/reconcile path (`fetchTasks`) and the change-feed subscription.
UI-only concerns (CSS classes, icons, the modal markup) are not part of the
embedding; network effects are made explicit as a list of issued database
calls, and the outcome of each asynchronous call is passed in as a
parameter so that (in)dependence on it can be stated.
-/

namespace ERP

/-- The five pipeline stages, the `department` union type of `Task` in
`types.ts` (`'planning' | 'cutting' | 'stitching' | 'washing' | 'finishing'`). -/
inductive Department
  | planning
  | cutting
  | stitching
  | washing
  | finishing
deriving DecidableEq, Repr

/-- The string each `Department` value denotes in the TypeScript source. -/
def Department.id : Department → String
  | .planning => "planning"
  | .cutting => "cutting"
  | .stitching => "stitching"
  | .washing => "washing"
  | .finishing => "finishing"

/-- The `status` union type of `Task` (`'todo' | 'in_progress' | 'completed'`). -/
inductive Status
  | todo
  | in_progress
  | completed
deriving DecidableEq, Repr

/-- The string each `Status` value denotes in the TypeScript source. -/
def Status.id : Status → String
  | .todo => "todo"
  | .in_progress => "in_progress"
  | .completed => "completed"

/-- The `priority` union type of `Task` (`'low' | 'medium' | 'high'`). -/
inductive Priority
  | low
  | medium
  | high
deriving DecidableEq, Repr

/-- The string each `Priority` value denotes in the TypeScript source. -/
def Priority.id : Priority → String
  | .low => "low"
  | .medium => "medium"
  | .high => "high"

/-- The `Task` row interface from `types.ts` (part_000, lines 45–66).
The optional joined projections `creator` / `assignee` are display-only
(name and avatar) and carry no behaviour used by the handlers, so they are
not part of the embedded row. -/
structure Task where
  id : String
  title : String
  description : Option String
  sku_ref : Option String
  department : Department
  status : Status
  priority : Priority
  assigned_to : Option String
  due_date : Option String
  user_id : String
  order_index : Int
  created_at : String
deriving DecidableEq, Repr

/-- One entry of the `DEPARTMENTS` constant (part_002, lines 763–769).
The `icon` member is a React element and has no embeddable data content. -/
structure DeptColumn where
  id : Department
  label : String
  color : String
deriving DecidableEq, Repr

/-- The `DEPARTMENTS` constant: the five fixed board columns. -/
def DEPARTMENTS : List DeptColumn :=
  [ ⟨.planning, "Planning", "bg-slate-100 text-slate-700"⟩,
    ⟨.cutting, "Pattern Cutting", "bg-blue-50 text-blue-700"⟩,
    ⟨.stitching, "Stitching", "bg-indigo-50 text-indigo-700"⟩,
    ⟨.washing, "Washing", "bg-cyan-50 text-cyan-700"⟩,
    ⟨.finishing, "Finishing", "bg-emerald-50 text-emerald-700"⟩ ]

/-- The department ids of the five board columns. -/
def departmentIds : List String := DEPARTMENTS.map (fun c => c.id.id)

/-- The `newTask` form state of the Composer modal (part_002, lines 781–788):
every field is a string-valued controlled input except the two selects,
whose values range over their respective enums. -/
structure NewTaskForm where
  title : String
  description : String
  department : Department
  priority : Priority
  sku_ref : String
  assigned_to : String
deriving DecidableEq, Repr

/-- The initial (and post-submit reset) value of the Composer form. -/
def initialNewTask : NewTaskForm :=
  ⟨"", "", .planning, .medium, "", ""⟩

/-- The slice of the `Tasks` component state the pipeline handlers read and
write: the task collection, the drag controller's task id (`null` = Idle),
the session identity, and the Composer modal state. -/
structure TasksState where
  tasks : List Task
  draggingTaskId : Option String
  currentUser : Option String
  newTask : NewTaskForm
  showAddModal : Bool
  isSaving : Bool
deriving DecidableEq, Repr

/-- A JSON-ish field value appearing in an insert payload or update patch:
every field the handlers send is a string or `null`. -/
inductive Value
  | str (s : String)
  | null
deriving DecidableEq, Repr

/-- A database call issued to the backing store, with its table and its
payload made explicit. Payloads and patches are association lists mirroring
the JavaScript object literals the source passes to the client. -/
inductive DbCall
  | insert (table : String) (payload : List (String × Value))
  | update (table : String) (rowId : String) (patch : List (String × Value))
  | delete (table : String) (rowId : String)
deriving DecidableEq, Repr

/-- Result of running one handler: the new component state, the database
calls it issued, the `alert` messages it raised, and whether it triggered a
follow-up `fetchTasks` reload. -/
structure OpResult where
  state : TasksState
  calls : List DbCall
  alerts : List String
  refetch : Bool
deriving DecidableEq, Repr

/-- JavaScript `s || null` on a string: the empty string is falsy. -/
def emptyToNull (s : String) : Option String :=
  if s = "" then none else some s

/-- The insert payload built by `handleAddTask` (part_002, lines 863–872):
an object literal with exactly these eight fields, in source order.
`sku_ref` and `assigned_to` use `|| null`; `status` is the literal
`'todo'`; `user_id` is the authenticated user's id. -/
def handleAddTaskPayload (form : NewTaskForm) (userId : String) :
    List (String × Value) :=
  [ ("title", Value.str form.title),
    ("description", Value.str form.description),
    ("department", Value.str form.department.id),
    ("priority", Value.str form.priority.id),
    ("sku_ref", match emptyToNull form.sku_ref with
                | some s => Value.str s
                | none => Value.null),
    ("assigned_to", match emptyToNull form.assigned_to with
                    | some s => Value.str s
                    | none => Value.null),
    ("user_id", Value.str userId),
    ("status", Value.str "todo") ]

/-- The `handleAddTask` submit handler (part_002, lines 853–884).
`hasClient` is whether `getSupabaseClient()` returned a client (the handler
returns early otherwise, leaving `isSaving` set); `authUser` is the id of
the authenticated user, `none` when `auth.getUser()` yields no user;
`insertError` is the error, if any, returned by the awaited insert call.
On error the caught message is alerted; on success the modal closes, the
form resets and a reload is triggered. -/
def handleAddTask (st : TasksState) (hasClient : Bool)
    (authUser : Option String) (insertError : Option String) : OpResult :=
  let st1 := { st with isSaving := true }
  if hasClient then
    match authUser with
    | none =>
        ⟨{ st1 with isSaving := false }, [], ["Authentication required"], false⟩
    | some uid =>
        let payload := handleAddTaskPayload st.newTask uid
        match insertError with
        | some msg =>
            ⟨{ st1 with isSaving := false },
             [DbCall.insert "tasks" payload], [msg], false⟩
        | none =>
            ⟨{ st1 with isSaving := false, showAddModal := false,
                        newTask := initialNewTask },
             [DbCall.insert "tasks" payload], [], true⟩
  else ⟨st1, [], [], false⟩

/-- Composer form submission. The title input carries the HTML `required`
attribute (part_002, line 1056), so the browser blocks a submit whose title
is the empty string synchronously, before the `onSubmit` handler runs and
before any network activity; otherwise the submit event reaches
`handleAddTask`. -/
def composerSubmit (st : TasksState) (hasClient : Bool)
    (authUser : Option String) (insertError : Option String) : OpResult :=
  if st.newTask.title = "" then ⟨st, [], [], false⟩
  else handleAddTask st hasClient authUser insertError

/-- The `handleDragStart` handler (part_002, line 886): entering the
Dragging state records the dragged task's id. -/
def handleDragStart (st : TasksState) (taskId : String) : TasksState :=
  { st with draggingTaskId := some taskId }

/-- The optimistic local move inside `handleDrop` (part_002, line 895):
`setTasks(prev => prev.map(t => t.id === draggingTaskId ? {...t, department: targetDept} : t))`. -/
def applyOptimisticMove (tasks : List Task) (taskId : String)
    (d : Department) : List Task :=
  tasks.map (fun t => if t.id == taskId then { t with department := d } else t)

/-- The update patch `handleDrop` persists (part_002, line 899):
`{ department: targetDept }`. -/
def dropUpdatePatch (d : Department) : List (String × Value) :=
  [("department", Value.str d.id)]

/-- The `handleDrop` handler (part_002, lines 888–902). The guard
`if (!draggingTaskId) return` treats both `null` and the empty string as
falsy. When the found task's current department equals the drop column the
handler returns early (before the optimistic update, before the persistence
call — and before `setDraggingTaskId(null)`). Otherwise it applies the
optimistic move, issues the update when a client exists, and clears the
dragging id. The awaited update's outcome (`updateError`) is never
inspected. -/
def handleDrop (st : TasksState) (targetDept : Department) (hasClient : Bool)
    (updateError : Option String) : OpResult :=
  match st.draggingTaskId with
  | none => ⟨st, [], [], false⟩
  | some dragId =>
    if dragId = "" then ⟨st, [], [], false⟩
    else
      let taskToMove := st.tasks.find? (fun t => t.id == dragId)
      if taskToMove.map Task.department = some targetDept then
        ⟨st, [], [], false⟩
      else
        let _ := updateError
        ⟨{ st with tasks := applyOptimisticMove st.tasks dragId targetDept,
                   draggingTaskId := none },
         if hasClient then [DbCall.update "tasks" dragId (dropUpdatePatch targetDept)]
         else [],
         [], false⟩

/-- The `deleteTask` handler (part_002, lines 906–916). The creator guard
(`task.user_id !== currentUser`) runs first and alerts on mismatch; then
the `confirm` dialog; then the client check. The awaited delete call's
outcome (`deleteError`) is never inspected: the local filter runs
regardless. -/
def deleteTask (st : TasksState) (task : Task) (confirmed : Bool)
    (hasClient : Bool) (deleteError : Option String) : OpResult :=
  if some task.user_id ≠ st.currentUser then
    ⟨st, [], ["Only the operation initiator can purge this task."], false⟩
  else if confirmed then
    if hasClient then
      let _ := deleteError
      ⟨{ st with tasks := st.tasks.filter (fun t => t.id != task.id) },
       [DbCall.delete "tasks" task.id], [], false⟩
    else ⟨st, [], [], false⟩
  else ⟨st, [], [], false⟩

/-- The ordering of the `fetchTasks` query (part_002, line 805):
`.order('created_at', { ascending: true })`. -/
structure QuerySpec where
  table : String
  orderBy : String
  ascending : Bool
deriving DecidableEq, Repr

/-- The query issued by `fetchTasks`: the `tasks` table ordered by
`created_at` ascending. -/
def fetchTasksQuery : QuerySpec := ⟨"tasks", "created_at", true⟩

/-- The `fetchTasks` load/reconcile path (part_002, lines 790–812).
`authUser` is `userData.user?.id`; `currentUser` is set to it with `|| null`
semantics. `queryResult` is the outcome of the select: on error the thrown
error is caught and the task collection is left as it was; on success the
collection is replaced wholesale by `data || []`. -/
def fetchTasks (st : TasksState) (hasClient : Bool) (authUser : Option String)
    (queryResult : Except String (Option (List Task))) : TasksState :=
  if hasClient then
    let st1 := { st with currentUser := authUser.bind emptyToNull }
    match queryResult with
    | .error _ => st1
    | .ok data => { st1 with tasks := data.getD [] }
  else st

/-- The type of a change-feed notification from the backing store. -/
inductive ChangeEventType
  | insert
  | update
  | delete
deriving DecidableEq, Repr

/-- A change-feed notification: its operation type and whatever row payload
the stream attaches to it. -/
structure ChangeEvent where
  type : ChangeEventType
  payload : List (String × Value)
deriving DecidableEq, Repr

/-- The action a feed callback requests of the component. -/
inductive FeedAction
  | reloadTasks
deriving DecidableEq, Repr

/-- The `tasks-live` channel callback (part_002, lines 845–847):
`() => { fetchTasks(); }` — it binds no parameter, so the delivered event is
never inspected; it always triggers a full reload. -/
def onTasksChange (_e : ChangeEvent) : FeedAction := FeedAction.reloadTasks

/-- The subscription configuration of the `tasks-live` channel (part_002,
line 845): `{ event: '*', table: 'tasks', schema: 'public' }`. -/
structure SubscriptionSpec where
  event : String
  table : String
  schema : String
deriving DecidableEq, Repr

/-- The subscription the component opens once per session. -/
def tasksLiveSubscription : SubscriptionSpec := ⟨"*", "tasks", "public"⟩

/-- Forgets a task's department by pinning it to a fixed stage. Two task
lists with equal images under this map agree on every field of every task
except possibly the department — it is the frame-condition projection used
to state that a move writes nothing but the department. -/
def eraseDepartment (t : Task) : Task :=
  { t with department := Department.planning }

/-! Concrete sample data used to instantiate the theorems below. -/

/-- A sample task created by user `u1`, sitting in the planning column. -/
def exTask1 : Task :=
  ⟨"t1", "Cut fabric panel A", none, none, .planning, .todo, .medium,
   none, none, "u1", 0, "2024-01-01T00:00:00Z"⟩

/-- A session state whose current identity `u2` differs from `exTask1`'s
creator `u1`. -/
def exStateU2 : TasksState :=
  ⟨[exTask1], none, some "u2", initialNewTask, false, false⟩

/-- A session state of the creator `u1` with `exTask1` loaded. -/
def exStateOwner : TasksState :=
  ⟨[exTask1], none, some "u1", initialNewTask, false, false⟩

/-- The creator's session in the middle of dragging `exTask1`. -/
def exDragState : TasksState :=
  ⟨[exTask1], some "t1", some "u1", initialNewTask, false, false⟩

/-! Helper lemmas about the optimistic move and the drop handler. -/

/-- Any projection that ignores the department field is preserved pointwise
by an optimistic move. -/
theorem applyOptimisticMove_map_eq {α : Type} (ts : List Task) (tid : String)
    (d : Department) (f : Task → α)
    (hf : ∀ t : Task, f { t with department := d } = f t) :
    (applyOptimisticMove ts tid d).map f = ts.map f := by
  induction ts with
  | nil => rfl
  | cons t ts ih =>
    simp only [applyOptimisticMove, List.map_cons] at ih ⊢
    refine congrArg₂ List.cons ?_ ih
    by_cases h : t.id == tid
    · simp [h, hf]
    · simp [h]

/-- An optimistic move never changes the number of tasks. -/
theorem applyOptimisticMove_length (ts : List Task) (tid : String)
    (d : Department) :
    (applyOptimisticMove ts tid d).length = ts.length := by
  simp [applyOptimisticMove]

/-- After an optimistic move, every task carrying the moved id is in the
target department. -/
theorem applyOptimisticMove_moved_dept (ts : List Task) (tid : String)
    (d : Department) :
    ∀ u ∈ applyOptimisticMove ts tid d, u.id = tid → u.department = d := by
  intro u hu hid
  simp only [applyOptimisticMove, List.mem_map] at hu
  obtain ⟨t, _ht, heq⟩ := hu
  by_cases h : t.id = tid
  · simp only [h, beq_self_eq_true, if_true] at heq
    exact heq ▸ rfl
  · simp only [beq_eq_false_iff_ne.mpr h, Bool.false_eq_true, if_false] at heq
    exact absurd (heq ▸ hid) h

/-- The task collection after `handleDrop` is either untouched or the
result of one optimistic move of the dragged id. -/
theorem handleDrop_tasks_cases (st : TasksState) (d : Department)
    (hc : Bool) (err : Option String) :
    (handleDrop st d hc err).state.tasks = st.tasks ∨
    ∃ dragId, st.draggingTaskId = some dragId ∧
      (handleDrop st d hc err).state.tasks =
        applyOptimisticMove st.tasks dragId d := by
  unfold handleDrop
  cases h : st.draggingTaskId with
  | none => exact Or.inl rfl
  | some dragId =>
    by_cases h2 : dragId = ""
    · exact Or.inl (by simp [h2])
    · by_cases h3 :
        (st.tasks.find? (fun t => t.id == dragId)).map Task.department = some d
      · exact Or.inl (by simp [h2, h3])
      · exact Or.inr ⟨dragId, rfl, by simp [h2, h3]⟩

/-- `handleDrop` never raises an alert, on any path. -/
theorem handleDrop_alerts_empty (st : TasksState) (d : Department)
    (hc : Bool) (err : Option String) :
    (handleDrop st d hc err).alerts = [] := by
  unfold handleDrop
  cases h : st.draggingTaskId with
  | none => rfl
  | some dragId =>
    by_cases h2 : dragId = ""
    · simp [h2]
    · by_cases h3 :
        (st.tasks.find? (fun t => t.id == dragId)).map Task.department = some d
      · simp [h2, h3]
      · simp [h2, h3]

/-- C1: a delete attempted by a requester identity different from the
task's creator identity (`user_id`) fails with the permission alert, issues
no database call, and leaves the component state — in particular the local
task collection, where the task stays present — unchanged. -/
theorem deleteTask_non_creator_guard (st : TasksState) (task : Task)
    (confirmed hasClient : Bool) (err : Option String)
    (h : some task.user_id ≠ st.currentUser) :
    (deleteTask st task confirmed hasClient err).state = st ∧
    (deleteTask st task confirmed hasClient err).calls = [] ∧
    (deleteTask st task confirmed hasClient err).alerts =
      ["Only the operation initiator can purge this task."] ∧
    ∀ t ∈ st.tasks, t ∈ (deleteTask st task confirmed hasClient err).state.tasks := by
  simp [deleteTask, h]

/-- Witness for C1: `u2` attempts to delete `u1`'s task `t1`. -/
theorem deleteTask_non_creator_guard_witness :
    (deleteTask exStateU2 exTask1 true true none).state = exStateU2 ∧
    (deleteTask exStateU2 exTask1 true true none).calls = [] ∧
    (deleteTask exStateU2 exTask1 true true none).alerts =
      ["Only the operation initiator can purge this task."] ∧
    ∀ t ∈ exStateU2.tasks,
      t ∈ (deleteTask exStateU2 exTask1 true true none).state.tasks :=
  deleteTask_non_creator_guard exStateU2 exTask1 true true none (by decide)

/-- C2: whatever the form's field values and whatever the insert call's
outcome, a Composer submit that reaches the insert sends exactly one insert
into `tasks` whose payload carries `status = 'todo'` and
`user_id = the submitting identity`. -/
theorem composer_insert_status_and_creator (st : TasksState) (uid : String)
    (insertError : Option String) :
    (handleAddTask st true (some uid) insertError).calls =
      [DbCall.insert "tasks" (handleAddTaskPayload st.newTask uid)] ∧
    (handleAddTaskPayload st.newTask uid).lookup "status" =
      some (Value.str "todo") ∧
    (handleAddTaskPayload st.newTask uid).lookup "user_id" =
      some (Value.str uid) := by
  refine ⟨?_, ?_, ?_⟩
  · cases insertError <;> simp [handleAddTask]
  · rfl
  · rfl

/-- C3: dropping a dragged task onto the column equal to its current
department returns early: no database call is issued and the whole
component state, the local task collection included, is unchanged. -/
theorem handleDrop_same_department_noop (st : TasksState) (d : Department)
    (hasClient : Bool) (err : Option String) (dragId : String) (t : Task)
    (h1 : st.draggingTaskId = some dragId) (h2 : dragId ≠ "")
    (h3 : st.tasks.find? (fun x => x.id == dragId) = some t)
    (h4 : t.department = d) :
    handleDrop st d hasClient err = ⟨st, [], [], false⟩ := by
  simp [handleDrop, h1, h2, h3, h4]

/-- Witness for C3: `t1` sits in planning and is dropped back on planning. -/
theorem handleDrop_same_department_noop_witness :
    handleDrop exDragState Department.planning true none =
      ⟨exDragState, [], [], false⟩ :=
  handleDrop_same_department_noop exDragState Department.planning true none
    "t1" exTask1 rfl (by decide) (by decide) (by decide)

/-- C5: a Composer submission with an empty title is blocked synchronously
by the required title input: no database call is issued, no reload is
triggered, and the component state is unchanged. -/
theorem composer_empty_title_blocked (st : TasksState) (hasClient : Bool)
    (authUser : Option String) (insertError : Option String)
    (h : st.newTask.title = "") :
    composerSubmit st hasClient authUser insertError = ⟨st, [], [], false⟩ := by
  simp [composerSubmit, h]

/-- Witness for C5: submitting the untouched (empty-title) form changes
nothing and issues no call. -/
theorem composer_empty_title_blocked_witness :
    composerSubmit exStateU2 true (some "u2") none =
      ⟨exStateU2, [], [], false⟩ :=
  composer_empty_title_blocked exStateU2 true (some "u2") none (by decide)

/-- Counterexample to C4: while dragging `t1` (currently in planning), a
drop on planning takes the same-department early-return path, which runs
before `setDraggingTaskId(null)` — so the controller does NOT end Idle: the
dragging task id is still recorded afterwards. -/
theorem handleDrop_noop_keeps_dragging_cex :
    (handleDrop exDragState Department.planning true none).state.draggingTaskId
      = some "t1" := by
  decide

/-- C4 (amended): processed in the Dragging state with the dragged task
found, a same-department drop leaves the whole state unchanged — the
dragging task id included, so the controller stays in Dragging rather than
returning to Idle — while a cross-department drop ends in Idle, produces a
result independent of the persistence call's outcome, and leaves the
optimistic department change in place (not rolled back) even on failure. -/
theorem handleDrop_drop_transitions (st : TasksState) (d : Department)
    (err errAlt : Option String) (dragId : String) (t : Task)
    (h1 : st.draggingTaskId = some dragId) (h2 : dragId ≠ "")
    (h3 : st.tasks.find? (fun x => x.id == dragId) = some t) :
    (t.department = d → handleDrop st d true err = ⟨st, [], [], false⟩) ∧
    (t.department ≠ d →
      (handleDrop st d true err).state.draggingTaskId = none ∧
      handleDrop st d true err = handleDrop st d true errAlt ∧
      ∀ u ∈ (handleDrop st d true err).state.tasks,
        u.id = dragId → u.department = d) := by
  constructor
  · intro h4
    simp [handleDrop, h1, h2, h3, h4]
  · intro h4
    have hne : ¬ ((st.tasks.find? (fun x => x.id == dragId)).map Task.department
        = some d) := by
      rw [h3]
      simpa using h4
    refine ⟨?_, ?_, ?_⟩
    · simp [handleDrop, h1, h2, hne]
    · simp [handleDrop, h1, h2, hne]
    · intro u hu hid
      have htasks : (handleDrop st d true err).state.tasks =
          applyOptimisticMove st.tasks dragId d := by
        simp [handleDrop, h1, h2, hne]
      rw [htasks] at hu
      exact applyOptimisticMove_moved_dept st.tasks dragId d u hu hid

/-- Witness for C4 (amended): dragging `t1` from planning and dropping it
on cutting ends Idle and is unaffected by a failed persistence call. -/
theorem handleDrop_drop_transitions_witness :
    (handleDrop exDragState Department.cutting true (some "boom")).state.draggingTaskId
      = none ∧
    handleDrop exDragState Department.cutting true (some "boom") =
      handleDrop exDragState Department.cutting true none := by
  have h := handleDrop_drop_transitions exDragState Department.cutting
    (some "boom") none "t1" exTask1 rfl (by decide) (by decide)
  exact ⟨(h.2 (by decide)).1, (h.2 (by decide)).2.1⟩

/-- C6: a completed reconcile replaces the local task collection wholesale
by the fetched snapshot: the result equals exactly the fetched rows, is the
empty list when the fetch yields none, and does not depend on the previous
local state (no element-wise merging with prior optimistic mutations). -/
theorem fetchTasks_wholesale_replacement (st stAlt : TasksState)
    (au auAlt : Option String) (data : Option (List Task)) :
    (fetchTasks st true au (Except.ok data)).tasks = data.getD [] ∧
    (fetchTasks st true au (Except.ok data)).tasks =
      (fetchTasks stAlt true auAlt (Except.ok data)).tasks ∧
    (fetchTasks st true au (Except.ok none)).tasks = [] := by
  refine ⟨?_, ?_, ?_⟩ <;> simp [fetchTasks]

/-- C7: the `tasks-live` subscription watches every event type (`'*'`) on
the `tasks` table, and its callback is a constant function of the delivered
event: whatever the event's operation type or payload, it requests the same
full reload, so the reload decision depends on no content of the event. -/
theorem changefeed_reloads_unconditionally (e eAlt : ChangeEvent) :
    onTasksChange e = FeedAction.reloadTasks ∧
    onTasksChange e = onTasksChange eAlt ∧
    tasksLiveSubscription.event = "*" ∧
    tasksLiveSubscription.table = "tasks" :=
  ⟨rfl, rfl, rfl, rfl⟩

/-- C8: the department invariant is preserved by every local operation.
Every value of the embedded department type is one of the five column ids
(a task stores exactly one such field, so it belongs to exactly one
department); a drop never changes the number of tasks nor their ids (a move
reassigns, never duplicates); the Composer payload's department is the
form's chosen stage, again one of the five; and a delete only ever removes
tasks, so every surviving task was already present with its department. -/
theorem pipeline_preserves_department_invariant (st : TasksState)
    (d : Department) (hasClient confirmed : Bool) (err : Option String)
    (task : Task) (f : NewTaskForm) (uid : String) :
    (∀ dep : Department, dep.id ∈ departmentIds) ∧
    (handleDrop st d hasClient err).state.tasks.length = st.tasks.length ∧
    (handleDrop st d hasClient err).state.tasks.map Task.id
      = st.tasks.map Task.id ∧
    (handleAddTaskPayload f uid).lookup "department"
      = some (Value.str f.department.id) ∧
    (∀ t ∈ (deleteTask st task confirmed hasClient err).state.tasks,
      t ∈ st.tasks) := by
  refine ⟨?_, ?_, ?_, rfl, ?_⟩
  · intro dep
    cases dep <;> decide
  · rcases handleDrop_tasks_cases st d hasClient err with h | ⟨dragId, _, h⟩
    · rw [h]
    · rw [h, applyOptimisticMove_length]
  · rcases handleDrop_tasks_cases st d hasClient err with h | ⟨dragId, _, h⟩
    · rw [h]
    · rw [h, applyOptimisticMove_map_eq st.tasks dragId d Task.id
        (fun _ => rfl)]
  · intro t ht
    unfold deleteTask at ht
    split at ht
    · exact ht
    · split at ht
      · split at ht
        · simp only [List.mem_filter] at ht
          exact ht.1
        · exact ht
      · exact ht

/-- Counterexample to C9: the creator deletes `t1`, the delete persistence
call fails, and yet nothing is surfaced (no alert) while the local
collection still drops the task — the failure is silently ignored, not
reported. -/
theorem delete_failure_not_surfaced_cex :
    (deleteTask exStateOwner exTask1 true true (some "network failure")).alerts
      = [] ∧
    exTask1 ∉
      (deleteTask exStateOwner exTask1 true true (some "network failure")).state.tasks := by
  decide

/-- C9 (amended): only the Composer's insert failure is surfaced (its error
message is alerted, with the local collection untouched — no partial
commit); a failed delete raises no alert yet still removes the task from
the local collection, and a failed move update raises no alert and yields a
result identical to the success case — in no case is the optimistic local
state rolled back. -/
theorem persistence_failure_surfacing (st : TasksState) (uid msg e : String)
    (task : Task) (d : Department)
    (hcreator : st.currentUser = some task.user_id) :
    (handleAddTask st true (some uid) (some msg)).alerts = [msg] ∧
    (handleAddTask st true (some uid) (some msg)).state.tasks = st.tasks ∧
    (deleteTask st task true true (some e)).alerts = [] ∧
    task.id ∉ (deleteTask st task true true (some e)).state.tasks.map Task.id ∧
    (handleDrop st d true (some e)).alerts = [] ∧
    handleDrop st d true (some e) = handleDrop st d true none := by
  refine ⟨?_, ?_, ?_, ?_, ?_, ?_⟩
  · simp [handleAddTask]
  · simp [handleAddTask]
  · simp [deleteTask, hcreator]
  · simp only [deleteTask, hcreator, ne_eq, not_true_eq_false, if_neg,
      if_pos, if_true, not_false_iff]
    simp [List.mem_filter]
  · exact handleDrop_alerts_empty st d true (some e)
  · rfl

/-- Witness for C9 (amended): with the creator's session, a failed insert
alerts its message while a failed delete alerts nothing. -/
theorem persistence_failure_surfacing_witness :
    (handleAddTask exStateOwner true (some "u1") (some "db down")).alerts
      = ["db down"] ∧
    (deleteTask exStateOwner exTask1 true true (some "offline")).alerts = [] := by
  have h := persistence_failure_surfacing exStateOwner "u1" "db down"
    "offline" exTask1 Department.cutting (by decide)
  exact ⟨h.1, h.2.2.1⟩

/-- C10: no pipeline operation touches `order_index` — the Composer's
insert payload has no such key, the drop's update patch writes exactly the
department key, an optimistic move preserves the `order_index` of every
task (and, via `eraseDepartment`, every field of every task other than the
moved department), and the load query orders by `created_at` ascending. -/
theorem order_index_untouched (f : NewTaskForm) (uid : String)
    (ts : List Task) (tid : String) (d : Department) :
    (handleAddTaskPayload f uid).lookup "order_index" = none ∧
    (dropUpdatePatch d).map Prod.fst = ["department"] ∧
    (applyOptimisticMove ts tid d).map Task.order_index
      = ts.map Task.order_index ∧
    (applyOptimisticMove ts tid d).map eraseDepartment
      = ts.map eraseDepartment ∧
    fetchTasksQuery.orderBy = "created_at" ∧
    fetchTasksQuery.ascending = true := by
  refine ⟨rfl, rfl, ?_, ?_, rfl, rfl⟩
  · exact applyOptimisticMove_map_eq ts tid d Task.order_index (fun _ => rfl)
  · exact applyOptimisticMove_map_eq ts tid d eraseDepartment (fun _ => rfl)

end ERP
